import Mathlib

/-!
Verification of the detection request pipeline of the aircraft-detection
repository (src/app.py).  The pipeline is: validate the uploaded file,
store it under a timestamped name, run the detector, store the annotated
result, assemble the JSON response.  Strings are embedded as `List Char`,
confidences as exact rationals, and the HTTP handler as a pure function of
the request together with an environment that records the behaviour of the
external collaborators (the clock, werkzeug's sanitizer, the filesystem and
the detection model) for the one request under consideration.
-/

namespace AircraftDetection

/-! ### Threat level (src/app.py, embedded page script, function showResults)

The page script computes
  let threatLevel = 'LOW';
  if (data.detection_count >= 5) { threatLevel = 'HIGH'; }
  else if (data.detection_count >= 2) { threatLevel = 'MEDIUM'; }
-/

inductive ThreatLevel where
  | LOW
  | MEDIUM
  | HIGH
deriving DecidableEq, Repr

def threatLevel (detection_count : Nat) : ThreatLevel :=
  if detection_count ≥ 5 then ThreatLevel.HIGH
  else if detection_count ≥ 2 then ThreatLevel.MEDIUM
  else ThreatLevel.LOW

/-! ### Average confidence (src/app.py, embedded page script, showResults)

  const avgConfidence = data.detections.length > 0
      ? data.detections.reduce((sum, det) => sum + det.confidence, 0)
          / data.detections.length
      : 0;

Confidences are embedded as exact rationals; `reduce` with initial
accumulator 0 is a left fold. -/

def average_confidence (confs : List ℚ) : ℚ :=
  if confs.length > 0 then
    confs.foldl (fun sum det => sum + det) 0 / (confs.length : ℚ)
  else 0

/-! ### Upload validator (src/app.py, lines 22 and 48-52)

  ALLOWED_EXTENSIONS = {'png', 'jpg', 'jpeg', 'bmp', 'tiff', 'tif'}
  def allowed_file(filename):
      return '.' in filename and
             filename.rsplit('.', 1)[1].lower() in ALLOWED_EXTENSIONS

`filename.rsplit('.', 1)[1]` is the suffix of the filename after its last
dot; it is embedded by taking characters from the right end while they
differ from '.'. -/

def ALLOWED_EXTENSIONS : List (List Char) :=
  ["png".toList, "jpg".toList, "jpeg".toList, "bmp".toList,
   "tiff".toList, "tif".toList]

/-- The suffix of the filename after its last '.' (equal to the whole
filename when it has no dot); this is `rsplit('.', 1)` taking the part
right of the split point. -/
def afterLastDot (s : List Char) : List Char :=
  ((s.reverse.takeWhile (fun c => c ≠ '.')).reverse)

def lower (s : List Char) : List Char := s.map Char.toLower

def allowed_file (filename : List Char) : Bool :=
  ('.' ∈ filename) && (lower (afterLastDot filename) ∈ ALLOWED_EXTENSIONS)

/-- The specification's reading of the validator: the filename decomposes
as a stem, a dot, and a dot-free extension whose lowercasing lies in the
allow-set. -/
def specAllowed (filename : List Char) : Prop :=
  ∃ stem ext : List Char,
    filename = stem ++ '.' :: ext ∧ '.' ∉ ext ∧
      lower ext ∈ ALLOWED_EXTENSIONS

/-! Helper lemmas about the last-dot decomposition. -/

theorem takeWhile_append_cons (p : Char → Bool) (l₁ : List Char) (x : Char)
    (l₂ : List Char) (h₁ : ∀ a ∈ l₁, p a = true) (hx : p x = false) :
    (l₁ ++ x :: l₂).takeWhile p = l₁ := by
  induction l₁ with
  | nil => simp [List.takeWhile, hx]
  | cons a l ih =>
    have ha : p a = true := h₁ a (by simp)
    simp only [List.cons_append, List.takeWhile_cons, ha, if_true]
    rw [ih (fun b hb => h₁ b (by simp [hb]))]

theorem dropWhile_append_cons (p : Char → Bool) (l₁ : List Char) (x : Char)
    (l₂ : List Char) (h₁ : ∀ a ∈ l₁, p a = true) (hx : p x = false) :
    (l₁ ++ x :: l₂).dropWhile p = x :: l₂ := by
  induction l₁ with
  | nil => simp [List.dropWhile, hx]
  | cons a l ih =>
    have ha : p a = true := h₁ a (by simp)
    simp only [List.cons_append, List.dropWhile_cons, ha, if_true]
    exact ih (fun b hb => h₁ b (by simp [hb]))

theorem afterLastDot_append_ext (stem ext : List Char) (hext : '.' ∉ ext) :
    afterLastDot (stem ++ '.' :: ext) = ext := by
  unfold afterLastDot
  rw [List.reverse_append]
  simp only [List.reverse_cons, List.append_assoc, List.singleton_append]
  rw [takeWhile_append_cons _ ext.reverse '.' stem.reverse
      (fun a ha => by
        simp only [decide_eq_true_eq, ne_eq]
        intro h; exact hext (h ▸ (List.mem_reverse.mp ha)))
      (by simp)]
  exact List.reverse_reverse ext

theorem mem_of_mem_takeWhile {p : Char → Bool} {a : Char} :
    ∀ {l : List Char}, a ∈ l.takeWhile p → p a = true := by
  intro l
  induction l with
  | nil => intro h; simp [List.takeWhile] at h
  | cons b l ih =>
    intro h
    rw [List.takeWhile_cons] at h
    by_cases hb : p b = true
    · rw [if_pos hb] at h
      rcases List.mem_cons.mp h with h | h
      · exact h ▸ hb
      · exact ih h
    · rw [if_neg hb] at h; simp at h

theorem no_dot_afterLastDot (s : List Char) : '.' ∉ afterLastDot s := by
  intro h
  unfold afterLastDot at h
  have := mem_of_mem_takeWhile (List.mem_reverse.mp h)
  simp at this

/-- Splitting a list at its first '.', stated for the reversed filename. -/
theorem split_at_first_dot :
    ∀ l : List Char, '.' ∈ l →
      l = l.takeWhile (fun c => decide (c ≠ '.'))
          ++ '.' :: (l.dropWhile (fun c => decide (c ≠ '.'))).tail := by
  intro l
  induction l with
  | nil => intro h; simp at h
  | cons c cs ih =>
    intro h
    by_cases hc : c = '.'
    · subst hc
      simp [List.takeWhile_cons, List.dropWhile_cons]
    · have hcs : '.' ∈ cs := by
        rcases List.mem_cons.mp h with h' | h'
        · exact absurd h'.symm hc
        · exact h'
      have hpc : (fun c => decide (c ≠ '.')) c = true := by simp [hc]
      simp only [List.takeWhile_cons, List.dropWhile_cons, hpc, if_true,
        List.cons_append]
      exact congrArg (c :: ·) (ih hcs)

/-- When the filename has a dot it decomposes as stem, dot, `afterLastDot`. -/
theorem lastDot_decomposition (s : List Char) (h : '.' ∈ s) :
    ∃ stem : List Char, s = stem ++ '.' :: afterLastDot s := by
  have hrev : '.' ∈ s.reverse := List.mem_reverse.mpr h
  have hsplit := split_at_first_dot s.reverse hrev
  refine ⟨((s.reverse.dropWhile (fun c => decide (c ≠ '.'))).tail).reverse, ?_⟩
  calc s = s.reverse.reverse := (List.reverse_reverse s).symm
    _ = (s.reverse.takeWhile (fun c => decide (c ≠ '.'))
          ++ '.' :: (s.reverse.dropWhile (fun c => decide (c ≠ '.'))).tail).reverse := by
        rw [← hsplit]
    _ = ((s.reverse.dropWhile (fun c => decide (c ≠ '.'))).tail).reverse
          ++ '.' :: afterLastDot s := by
        rw [List.reverse_append, List.reverse_cons, List.append_assoc]
        rfl

theorem allowed_file_iff_specAllowed (filename : List Char) :
    allowed_file filename = true ↔ specAllowed filename := by
  constructor
  · intro h
    unfold allowed_file at h
    rw [Bool.and_eq_true] at h
    obtain ⟨hdot, hext⟩ := h
    have hdot' : '.' ∈ filename := by simpa using hdot
    obtain ⟨stem, hs⟩ := lastDot_decomposition filename hdot'
    exact ⟨stem, afterLastDot filename, hs, no_dot_afterLastDot filename,
      by simpa using hext⟩
  · rintro ⟨stem, ext, rfl, hnd, hmem⟩
    unfold allowed_file
    rw [Bool.and_eq_true]
    refine ⟨by simp, ?_⟩
    rw [afterLastDot_append_ext stem ext hnd]
    simpa using hmem

/-! ### Storage naming (src/app.py, lines 1044-1048 and 1066-1069)

  timestamp = datetime.now().strftime('%Y%m%d_%H%M%S_%f')
  filename_with_timestamp = f"{timestamp}_{filename}"
  ...
  name, ext = os.path.splitext(filename_with_timestamp)
  result_filename = f"detected_{name}.jpg"
-/

/-- Decimal digits of `n`, most significant first, driven by a fuel
argument so that it reduces definitionally. -/
def natDigitsCore : Nat → Nat → List Char
  | 0, _ => []
  | fuel + 1, n =>
    if n < 10 then [Char.ofNat (48 + n)]
    else natDigitsCore fuel (n / 10) ++ [Char.ofNat (48 + n % 10)]

def natDigits (n : Nat) : List Char := natDigitsCore (n + 1) n

def zeroPad (width : Nat) (s : List Char) : List Char :=
  List.replicate (width - s.length) '0' ++ s

/-- A wall-clock instant at microsecond resolution, the argument of
`datetime.now().strftime`. -/
structure Timestamp where
  year : Nat
  month : Nat
  day : Nat
  hour : Nat
  minute : Nat
  second : Nat
  microsecond : Nat
deriving DecidableEq, Repr

/-- `strftime('%Y%m%d_%H%M%S_%f')`: zero-padded decimal fields, the
microsecond field padded to six digits. -/
def strftimeUpload (t : Timestamp) : List Char :=
  zeroPad 4 (natDigits t.year) ++ zeroPad 2 (natDigits t.month)
    ++ zeroPad 2 (natDigits t.day)
    ++ '_' :: (zeroPad 2 (natDigits t.hour) ++ zeroPad 2 (natDigits t.minute)
    ++ zeroPad 2 (natDigits t.second)
    ++ '_' :: zeroPad 6 (natDigits t.microsecond))

/-- `f"{timestamp}_{filename}"`, the stored name of the uploaded file. -/
def filename_with_timestamp (timestamp filename : List Char) : List Char :=
  timestamp ++ '_' :: filename

/-- The root part of `os.path.splitext` for a name without path
separators: split before the last '.' unless every character in front of
that dot is itself a dot (then there is no extension). -/
def splitextRoot (p : List Char) : List Char :=
  if '.' ∈ p then
    let root := ((p.reverse.dropWhile (fun c => c ≠ '.')).tail).reverse
    if root.any (fun c => c ≠ '.') then root else p
  else p

/-- `f"detected_{name}.jpg"` where `name` is the stem of the stored
name: the annotated result is always written as a JPEG. -/
def result_filename (stored : List Char) : List Char :=
  "detected_".toList ++ splitextRoot stored ++ ".jpg".toList

/-! ### The upload handler (src/app.py, upload_file, lines 1028-1110)

The handler is embedded as a pure function of the request together with an
environment recording, for this one request, the behaviour of the external
collaborators: the global model-loaded flag, the clock's formatted
timestamp, werkzeug's `secure_filename`, whether `file.save` raises,
whether the model call raises (and otherwise which boxes it returns,
`results[0].boxes` possibly being None), and what the two
`encode_image_to_base64` calls return (None on an IOError). -/

/-- One box of `results[0].boxes`: the values the handler reads off it
(`float(box.conf[0])`, `int(box.cls[0])`, `box.xyxy[0].tolist()`). -/
structure Box where
  conf : ℚ
  cls : ℤ
  xyxy : List ℚ
deriving DecidableEq, Repr

/-- One entry of the response's `detections` list. -/
structure Detection where
  confidence : ℚ
  class_id : ℤ
  bbox : List ℚ
deriving DecidableEq, Repr

def mkDetection (b : Box) : Detection :=
  { confidence := b.conf, class_id := b.cls, bbox := b.xyxy }

/-- The fields of the success JSON body, exactly as jsonify receives them. -/
structure SuccessPayload where
  original_image : List Char
  result_image : List Char
  detections : List Detection
  detection_count : Nat
  filename : List Char
deriving DecidableEq, Repr

inductive Body where
  | success (payload : SuccessPayload)
  | error (msg : List Char)
deriving DecidableEq, Repr

structure HttpResponse where
  status : Nat
  body : Body
deriving DecidableEq, Repr

/-- What the handler wrote and whom it called: the name written to the
uploads directory (if any), whether the model was invoked, and the name
written to the results directory (if any). -/
structure Effects where
  savedUpload : Option (List Char)
  invokedModel : Bool
  savedResult : Option (List Char)
deriving DecidableEq, Repr

def noEffects : Effects :=
  { savedUpload := none, invokedModel := false, savedResult := none }

structure Outcome where
  response : HttpResponse
  effects : Effects
deriving DecidableEq, Repr

/-- The incoming multipart request: whether a `file` part is present, and
the filename it carries (`''` is embedded as the empty list). -/
structure UploadRequest where
  hasFilePart : Bool
  filename : List Char
deriving DecidableEq, Repr

/-- The external collaborators' behaviour for one request. -/
structure Env where
  modelLoaded : Bool
  timestamp : List Char
  sanitize : List Char → List Char
  saveOutcome : Except (List Char) Unit
  inferOutcome : Except (List Char) (Option (List Box))
  encodeOriginal : Option (List Char)
  encodeResult : Option (List Char)

def OFFLINE_ERROR : List Char :=
  "AI model not loaded. System is offline.".toList

def NO_FILE_PART_ERROR : List Char :=
  "No file part in the request. Please select an image.".toList

def NO_SELECTED_FILE_ERROR : List Char :=
  "No selected file. Please choose an image to upload.".toList

def INVALID_TYPE_ERROR : List Char :=
  "Invalid file type. Please upload a supported image format.".toList

def ENCODE_ERROR : List Char :=
  "Failed to encode images to base64.".toList

def saveFailError (msg : List Char) : List Char :=
  "Failed to save uploaded file: ".toList ++ msg

def detectFailError (msg : List Char) : List Char :=
  "Detection process failed: ".toList ++ msg
    ++ ". Please try another image.".toList

/-- The body of `upload_file`.  Control flow follows the source line by
line; `if file and allowed_file(...)` reduces to the extension check since
a `FileStorage` with a non-empty filename is truthy, and the trailing
`return ... 400` is its else branch. -/
def upload_file (env : Env) (req : UploadRequest) : Outcome :=
  if env.modelLoaded = false then
    ⟨⟨500, Body.error OFFLINE_ERROR⟩, noEffects⟩
  else if req.hasFilePart = false then
    ⟨⟨400, Body.error NO_FILE_PART_ERROR⟩, noEffects⟩
  else if req.filename = [] then
    ⟨⟨400, Body.error NO_SELECTED_FILE_ERROR⟩, noEffects⟩
  else if allowed_file req.filename then
    let filename := env.sanitize req.filename
    let stored := filename_with_timestamp env.timestamp filename
    match env.saveOutcome with
    | Except.error e => ⟨⟨500, Body.error (saveFailError e)⟩, noEffects⟩
    | Except.ok _ =>
      match env.inferOutcome with
      | Except.error e =>
          ⟨⟨500, Body.error (detectFailError e)⟩,
           ⟨some stored, true, none⟩⟩
      | Except.ok boxes =>
          let resName := result_filename stored
          let detections := (boxes.getD []).map mkDetection
          match env.encodeOriginal, env.encodeResult with
          | some ob, some rb =>
              ⟨⟨200, Body.success
                  { original_image := ob, result_image := rb,
                    detections := detections,
                    detection_count := detections.length,
                    filename := stored }⟩,
               ⟨some stored, true, some resName⟩⟩
          | _, _ =>
              ⟨⟨500, Body.error ENCODE_ERROR⟩,
               ⟨some stored, true, some resName⟩⟩
  else
    ⟨⟨400, Body.error INVALID_TYPE_ERROR⟩, noEffects⟩

/-! ### Further helper lemmas -/

theorem foldl_add_eq_sum (l : List ℚ) :
    ∀ a : ℚ, l.foldl (fun sum det => sum + det) a = a + l.sum := by
  induction l with
  | nil => intro a; simp
  | cons x xs ih => intro a; simp only [List.foldl_cons, ih, List.sum_cons]; ring

theorem splitextRoot_append_ext (root ext : List Char) (hext : '.' ∉ ext)
    (hroot : root.any (fun c => c ≠ '.') = true) :
    splitextRoot (root ++ '.' :: ext) = root := by
  unfold splitextRoot
  rw [if_pos (by simp)]
  have hdrop : (root ++ '.' :: ext).reverse.dropWhile (fun c => decide (c ≠ '.'))
      = '.' :: root.reverse := by
    rw [List.reverse_append, List.reverse_cons, List.append_assoc,
      List.singleton_append]
    exact dropWhile_append_cons _ ext.reverse '.' root.reverse
      (fun a ha => by
        simp only [decide_eq_true_eq, ne_eq]
        intro h; exact hext (h ▸ (List.mem_reverse.mp ha)))
      (by simp)
  simp only [hdrop, List.tail_cons, List.reverse_reverse]
  rw [if_pos hroot]

/-- A fixed environment in which every collaborator succeeds: the model is
loaded, saving works, the detector returns one box, both encodings
succeed.  Used as the concrete input of the witnesses. -/
def envReady : Env :=
  { modelLoaded := true, timestamp := "20240102_030405_000006".toList,
    sanitize := fun s => s, saveOutcome := Except.ok (),
    inferOutcome := Except.ok (some [{ conf := 9/10, cls := 0, xyxy := [1, 2, 3, 4] }]),
    encodeOriginal := some ("OB".toList), encodeResult := some ("RB".toList) }

/-! ### The claims -/

theorem threatLevel_eq_HIGH (n : Nat) :
    threatLevel n = ThreatLevel.HIGH ↔ 5 ≤ n := by
  unfold threatLevel
  split_ifs <;> simp <;> omega

theorem threatLevel_eq_MEDIUM (n : Nat) :
    threatLevel n = ThreatLevel.MEDIUM ↔ 2 ≤ n ∧ n < 5 := by
  unfold threatLevel
  split_ifs <;> simp <;> omega

theorem threatLevel_eq_LOW (n : Nat) :
    threatLevel n = ThreatLevel.LOW ↔ n < 2 := by
  unfold threatLevel
  split_ifs <;> simp <;> omega

/-- C1: the threat level is a three-tier step function of the detection
count: `n ≥ 5` yields HIGH, `2 ≤ n < 5` yields MEDIUM, `n < 2` yields LOW,
with the boundary cases `1 ↦ LOW`, `2 ↦ MEDIUM`, `4 ↦ MEDIUM`,
`5 ↦ HIGH` holding exactly. -/
theorem C1_threat_level_step_function :
    (∀ n : Nat,
      (threatLevel n = ThreatLevel.HIGH ↔ 5 ≤ n)
      ∧ (threatLevel n = ThreatLevel.MEDIUM ↔ 2 ≤ n ∧ n < 5)
      ∧ (threatLevel n = ThreatLevel.LOW ↔ n < 2))
    ∧ threatLevel 1 = ThreatLevel.LOW
    ∧ threatLevel 2 = ThreatLevel.MEDIUM
    ∧ threatLevel 4 = ThreatLevel.MEDIUM
    ∧ threatLevel 5 = ThreatLevel.HIGH :=
  ⟨fun n => ⟨threatLevel_eq_HIGH n, threatLevel_eq_MEDIUM n,
      threatLevel_eq_LOW n⟩,
    by decide, by decide, by decide, by decide⟩

/-- C2: the upload validator accepts a filename iff it contains a '.' and
the lowercased suffix after the last '.' lies in the fixed allow-set
(png, jpg, jpeg, bmp, tiff, tif); in particular `x.PNG` is accepted while
`x` and `x.gif` are rejected. -/
theorem C2_allowed_file_characterisation :
    (∀ filename : List Char,
        allowed_file filename = true ↔ specAllowed filename)
    ∧ allowed_file ("x.PNG".toList) = true
    ∧ allowed_file ("x".toList) = false
    ∧ allowed_file ("x.gif".toList) = false :=
  ⟨allowed_file_iff_specAllowed, by decide, by decide, by decide⟩

/-- C3: the average confidence of a detection list is 0 when the list is
empty and otherwise the arithmetic mean of the confidences; in particular
it is 0 on the empty list and `0.7` on `[0.9, 0.5]`. -/
theorem C3_average_confidence_mean :
    (∀ confs : List ℚ,
        average_confidence confs = confs.sum / (confs.length : ℚ))
    ∧ average_confidence [] = 0
    ∧ average_confidence [9/10, 1/2] = 7/10 := by
  refine ⟨fun confs => ?_, by norm_num [average_confidence],
    by norm_num [average_confidence]⟩
  unfold average_confidence
  by_cases h : confs.length > 0
  · rw [if_pos h, foldl_add_eq_sum, zero_add]
  · rw [if_neg h]
    have : confs = [] := List.length_eq_zero.mp (by omega)
    subst this
    simp

/-- C4 as stated is false: the handler checks the model flag before any
input validation, so a request carrying the disallowed extension `.gif`
receives status 500, not 400, whenever the model failed to load. -/
theorem C4_counterexample :
    (upload_file { envReady with modelLoaded := false }
        ⟨true, ("x.gif".toList)⟩).response.status = 500
    ∧ ¬ (upload_file { envReady with modelLoaded := false }
        ⟨true, ("x.gif".toList)⟩).response.status = 400 := by
  decide

/-- C4 (amended): provided the model-loaded flag is true, every request
lacking a file part, carrying an empty filename or carrying a filename
with a disallowed extension receives status 400 with the corresponding
fixed error message echoed verbatim, and neither writes any file nor
invokes the model. -/
theorem C4_client_errors_get_400 (env : Env) (req : UploadRequest)
    (hm : env.modelLoaded = true)
    (h : req.hasFilePart = false ∨ req.filename = []
        ∨ allowed_file req.filename = false) :
    (upload_file env req).response =
      ⟨400, Body.error
        (if req.hasFilePart = false then NO_FILE_PART_ERROR
         else if req.filename = [] then NO_SELECTED_FILE_ERROR
         else INVALID_TYPE_ERROR)⟩
    ∧ (upload_file env req).effects = noEffects := by
  by_cases hf : req.hasFilePart = false
  · simp [upload_file, hm, hf]
  · by_cases hn : req.filename = []
    · simp [upload_file, hm, hf, hn]
    · have ha : allowed_file req.filename = false := by tauto
      simp [upload_file, hm, hf, hn, ha]

theorem C4_client_errors_get_400_witness :
    (upload_file envReady ⟨true, ("x.gif".toList)⟩).response =
      ⟨400, Body.error INVALID_TYPE_ERROR⟩
    ∧ (upload_file envReady ⟨true, ("x.gif".toList)⟩).effects = noEffects := by
  have h := C4_client_errors_get_400 envReady ⟨true, ("x.gif".toList)⟩
    rfl (Or.inr (Or.inr (by decide)))
  simpa using h

/-- C5: whenever the model failed to load at startup, every valid upload
(file part present, non-empty filename, allowed extension) receives
status 500 with the fixed offline message, the model is not invoked, and
no file is written to the uploads or results directories. -/
theorem C5_model_offline_rejects_valid_uploads (env : Env)
    (req : UploadRequest) (hm : env.modelLoaded = false)
    (hf : req.hasFilePart = true) (hn : req.filename ≠ [])
    (ha : allowed_file req.filename = true) :
    (upload_file env req).response = ⟨500, Body.error OFFLINE_ERROR⟩
    ∧ (upload_file env req).effects.savedUpload = none
    ∧ (upload_file env req).effects.invokedModel = false
    ∧ (upload_file env req).effects.savedResult = none := by
  simp [upload_file, hm, noEffects]

theorem C5_model_offline_rejects_valid_uploads_witness :
    (upload_file { envReady with modelLoaded := false }
        ⟨true, ("a.png".toList)⟩).response = ⟨500, Body.error OFFLINE_ERROR⟩
    ∧ (upload_file { envReady with modelLoaded := false }
        ⟨true, ("a.png".toList)⟩).effects.savedUpload = none
    ∧ (upload_file { envReady with modelLoaded := false }
        ⟨true, ("a.png".toList)⟩).effects.invokedModel = false
    ∧ (upload_file { envReady with modelLoaded := false }
        ⟨true, ("a.png".toList)⟩).effects.savedResult = none :=
  C5_model_offline_rejects_valid_uploads _ _ rfl rfl (by decide) (by decide)

/-- C10: the model-availability check precedes all input validation: with
the model-loaded flag false, every request — including one with no file
part, an empty filename or a disallowed extension — receives the 500
offline error, never a 400 validation error. -/
theorem C10_model_check_precedes_validation (env : Env)
    (req : UploadRequest) (hm : env.modelLoaded = false) :
    (upload_file env req).response = ⟨500, Body.error OFFLINE_ERROR⟩
    ∧ (upload_file env req).response.status ≠ 400 := by
  refine ⟨by simp [upload_file, hm], ?_⟩
  simp [upload_file, hm]

theorem C10_model_check_precedes_validation_witness :
    (upload_file { envReady with modelLoaded := false }
        ⟨false, ([])⟩).response = ⟨500, Body.error OFFLINE_ERROR⟩
    ∧ (upload_file { envReady with modelLoaded := false }
        ⟨false, ([])⟩).response.status ≠ 400 :=
  C10_model_check_precedes_validation _ _ rfl

/-- C6: on every successful upload the response is 200 and its body
carries exactly the fields success, original_image, result_image,
detections, detection_count and filename; the detections are the
adapter's boxes in order with confidence, class_id and bbox passed
through verbatim, and detection_count equals the length of the
detections list. -/
theorem C6_success_response_shape (env : Env) (req : UploadRequest)
    (bs : List Box) (ob rb : List Char)
    (hm : env.modelLoaded = true) (hf : req.hasFilePart = true)
    (hn : req.filename ≠ []) (ha : allowed_file req.filename = true)
    (hs : env.saveOutcome = Except.ok ())
    (hi : env.inferOutcome = Except.ok (some bs))
    (ho : env.encodeOriginal = some ob) (hr : env.encodeResult = some rb) :
    (upload_file env req).response =
      ⟨200, Body.success
        { original_image := ob, result_image := rb,
          detections := bs.map mkDetection,
          detection_count := (bs.map mkDetection).length,
          filename :=
            filename_with_timestamp env.timestamp (env.sanitize req.filename) }⟩
    ∧ (bs.map mkDetection).length = bs.length
    ∧ (bs.map mkDetection).map Detection.confidence = bs.map Box.conf
    ∧ (bs.map mkDetection).map Detection.class_id = bs.map Box.cls
    ∧ (bs.map mkDetection).map Detection.bbox = bs.map Box.xyxy := by
  refine ⟨?_, by simp, ?_, ?_, ?_⟩ <;>
    simp [upload_file, hm, hf, hn, ha, hs, hi, ho, hr, mkDetection,
      List.map_map, Function.comp]

theorem C6_success_response_shape_witness :
    (upload_file envReady ⟨true, ("a.png".toList)⟩).response =
      ⟨200, Body.success
        { original_image := ("OB".toList), result_image := ("RB".toList),
          detections :=
            [{ conf := 9/10, cls := 0, xyxy := [1, 2, 3, 4] }].map mkDetection,
          detection_count :=
            ([{ conf := 9/10, cls := 0, xyxy := [1, 2, 3, 4] }].map mkDetection).length,
          filename := filename_with_timestamp envReady.timestamp
            (envReady.sanitize ("a.png".toList)) }⟩
    ∧ ([({ conf := 9/10, cls := 0, xyxy := [1, 2, 3, 4] } : Box)].map mkDetection).length
        = [({ conf := 9/10, cls := 0, xyxy := [1, 2, 3, 4] } : Box)].length
    ∧ ([({ conf := 9/10, cls := 0, xyxy := [1, 2, 3, 4] } : Box)].map mkDetection).map
        Detection.confidence
        = [({ conf := 9/10, cls := 0, xyxy := [1, 2, 3, 4] } : Box)].map Box.conf
    ∧ ([({ conf := 9/10, cls := 0, xyxy := [1, 2, 3, 4] } : Box)].map mkDetection).map
        Detection.class_id
        = [({ conf := 9/10, cls := 0, xyxy := [1, 2, 3, 4] } : Box)].map Box.cls
    ∧ ([({ conf := 9/10, cls := 0, xyxy := [1, 2, 3, 4] } : Box)].map mkDetection).map
        Detection.bbox
        = [({ conf := 9/10, cls := 0, xyxy := [1, 2, 3, 4] } : Box)].map Box.xyxy :=
  C6_success_response_shape envReady ⟨true, ("a.png".toList)⟩
    [{ conf := 9/10, cls := 0, xyxy := [1, 2, 3, 4] }] ("OB".toList) ("RB".toList)
    rfl rfl (by decide) (by decide) rfl rfl rfl rfl

/-- C7: when inference raises, the handler returns status 500 with a
failure body whose message contains the adapter's message verbatim, and
the request produces no result artifact (the annotated image is never
written). -/
theorem C7_inference_failure_propagates (env : Env) (req : UploadRequest)
    (msg : List Char)
    (hm : env.modelLoaded = true) (hf : req.hasFilePart = true)
    (hn : req.filename ≠ []) (ha : allowed_file req.filename = true)
    (hs : env.saveOutcome = Except.ok ())
    (hi : env.inferOutcome = Except.error msg) :
    (upload_file env req).response = ⟨500, Body.error (detectFailError msg)⟩
    ∧ msg <:+: detectFailError msg
    ∧ (upload_file env req).effects.savedResult = none := by
  refine ⟨?_, ⟨"Detection process failed: ".toList,
    ". Please try another image.".toList, by simp [detectFailError]⟩, ?_⟩ <;>
    simp [upload_file, hm, hf, hn, ha, hs, hi]

theorem C7_inference_failure_propagates_witness :
    (upload_file { envReady with inferOutcome := Except.error ("boom".toList) }
        ⟨true, ("a.png".toList)⟩).response =
      ⟨500, Body.error (detectFailError ("boom".toList))⟩
    ∧ ("boom".toList) <:+: detectFailError ("boom".toList)
    ∧ (upload_file { envReady with inferOutcome := Except.error ("boom".toList) }
        ⟨true, ("a.png".toList)⟩).effects.savedResult = none :=
  C7_inference_failure_propagates _ ⟨true, ("a.png".toList)⟩ ("boom".toList)
    rfl rfl (by decide) (by decide) rfl rfl

/-- C8: the stored name is the microsecond-resolution timestamp, an
underscore, and the sanitized original name; the result is stored as
`detected_` followed by the stem of the stored name with the fixed
extension `.jpg`, whatever the original extension was. -/
theorem C8_storage_naming (t : Timestamp) (stem ext : List Char)
    (hext : '.' ∉ ext) :
    filename_with_timestamp (strftimeUpload t) (stem ++ '.' :: ext)
      = strftimeUpload t ++ '_' :: (stem ++ '.' :: ext)
    ∧ result_filename
        (filename_with_timestamp (strftimeUpload t) (stem ++ '.' :: ext))
      = "detected_".toList ++ (strftimeUpload t ++ '_' :: stem)
          ++ ".jpg".toList
    ∧ afterLastDot (result_filename
        (filename_with_timestamp (strftimeUpload t) (stem ++ '.' :: ext)))
      = "jpg".toList := by
  have hassoc : filename_with_timestamp (strftimeUpload t) (stem ++ '.' :: ext)
      = (strftimeUpload t ++ '_' :: stem) ++ '.' :: ext := by
    simp [filename_with_timestamp]
  have hroot : (strftimeUpload t ++ '_' :: stem).any (fun c => c ≠ '.') = true := by
    rw [List.any_eq_true]
    exact ⟨'_', by simp, by simp⟩
  have hstem : splitextRoot
      (filename_with_timestamp (strftimeUpload t) (stem ++ '.' :: ext))
      = strftimeUpload t ++ '_' :: stem := by
    rw [hassoc]
    exact splitextRoot_append_ext _ ext hext hroot
  refine ⟨rfl, ?_, ?_⟩
  · rw [result_filename, hstem]
  · rw [result_filename, hstem]
    have hjpg : ".jpg".toList = '.' :: "jpg".toList := rfl
    rw [hjpg, ← List.append_assoc]
    exact afterLastDot_append_ext _ ("jpg".toList) (by decide)

theorem C8_storage_naming_witness :
    filename_with_timestamp (strftimeUpload ⟨2024, 1, 2, 3, 4, 5, 6⟩)
        ("img".toList ++ '.' :: ("png".toList))
      = strftimeUpload ⟨2024, 1, 2, 3, 4, 5, 6⟩
          ++ '_' :: ("img".toList ++ '.' :: ("png".toList))
    ∧ result_filename (filename_with_timestamp
        (strftimeUpload ⟨2024, 1, 2, 3, 4, 5, 6⟩)
        ("img".toList ++ '.' :: ("png".toList)))
      = "detected_".toList
          ++ (strftimeUpload ⟨2024, 1, 2, 3, 4, 5, 6⟩ ++ '_' :: ("img".toList))
          ++ ".jpg".toList
    ∧ afterLastDot (result_filename (filename_with_timestamp
        (strftimeUpload ⟨2024, 1, 2, 3, 4, 5, 6⟩)
        ("img".toList ++ '.' :: ("png".toList))))
      = "jpg".toList :=
  C8_storage_naming ⟨2024, 1, 2, 3, 4, 5, 6⟩ ("img".toList) ("png".toList)
    (by decide)

/-- C9 as stated is false: the stored name is a deterministic function of
the formatted timestamp and the sanitized filename, so two uploads within
the same microsecond-resolvable instant with identical original filenames
receive the identical stored name — the second overwrites the first. -/
theorem C9_counterexample :
    ¬ (filename_with_timestamp (strftimeUpload ⟨2024, 1, 2, 3, 4, 5, 6⟩)
          ("img.png".toList)
        ≠ filename_with_timestamp (strftimeUpload ⟨2024, 1, 2, 3, 4, 5, 6⟩)
          ("img.png".toList))
    ∧ filename_with_timestamp (strftimeUpload ⟨2024, 1, 2, 3, 4, 5, 6⟩)
        ("img.png".toList)
      = "20240102_030405_000006_img.png".toList := by
  decide

/-- C9 (amended): stored names separate uploads exactly through the
formatted timestamp: with identical sanitized filenames, two uploads
receive distinct stored names iff their timestamp strings differ (in
particular any two uploads at distinct microsecond instants of the same
day do), while two uploads within the same microsecond instant collide. -/
theorem C9_distinct_timestamps_distinct_names (ts₁ ts₂ fn : List Char)
    (h : ts₁ ≠ ts₂) :
    filename_with_timestamp ts₁ fn ≠ filename_with_timestamp ts₂ fn := by
  intro he
  exact h (List.append_cancel_right he)

theorem C9_distinct_timestamps_distinct_names_witness :
    filename_with_timestamp (strftimeUpload ⟨2024, 1, 2, 3, 4, 5, 6⟩)
        ("img.png".toList)
      ≠ filename_with_timestamp (strftimeUpload ⟨2024, 1, 2, 3, 4, 5, 7⟩)
        ("img.png".toList) :=
  C9_distinct_timestamps_distinct_names _ _ _ (by decide)

end AircraftDetection
